import Mathlib

/-!
Verification development for `jetbrains.py`, a one-shot CLI that queries the
JetBrains release-metadata API and exposes `version`, `build`, `download`,
`download_url`, `checksum`, `checksum_url` and `generate_whatsnew` commands.

The shallow embedding below translates the script's pure logic into Lean:
decoded JSON values become an inductive `JSON`, the nested accessor
`get_item` becomes structural recursion over the key path, the streaming
SHA-256 validator becomes a fuel-indexed chunked read over the file's byte
list feeding a concrete SHA-256 implementation (modelling `hashlib.sha256`
per FIPS 180-4), and `main`'s network/filesystem effects are abstracted
into a `World` record (bytes served per URL) plus an explicit association
list for the local filesystem.
-/

namespace Jetbrains

/-- Decoded JSON values, as produced by `json.loads`: dicts (with string
keys), lists, strings, numbers, booleans and null. Numbers are modelled as
integers; nothing in the script depends on fractional values. -/
inductive JSON where
  | obj : List (String × JSON) → JSON
  | arr : List JSON → JSON
  | str : String → JSON
  | num : Int → JSON
  | bool : Bool → JSON
  | null : JSON

/-- A subscript applied during traversal: a string key or an integer index
(Python allows negative indices on sequences). -/
inductive Key where
  | str : String → Key
  | idx : Int → Key
deriving DecidableEq

/-- The Python exception classes relevant to `get_item` and `main`. -/
inductive PyErr where
  | keyError : PyErr
  | indexError : PyErr
  | typeError : PyErr
deriving DecidableEq

/-- Python's `isinstance(obj, (Mapping, Sequence))` on decoded JSON: dicts
are Mappings, lists are Sequences, and `str` is registered as a `Sequence`
in `collections.abc`; numbers, booleans and `None` are neither. -/
def isMappingOrSequence : JSON → Bool
  | .obj _ => true
  | .arr _ => true
  | .str _ => true
  | _ => false

/-- Python sequence indexing: index `i` into a sequence of length `len`,
with negative indices counting from the end; out of range is an
`IndexError`. Returns the normalised non-negative index. -/
def seqIndex (len : Nat) (i : Int) : Option Nat :=
  let j : Int := if i < 0 then i + Int.ofNat len else i
  if 0 ≤ j ∧ j < Int.ofNat len then some j.toNat else none

/-- One subscripting step `current[key]`, with Python's exception classes:
a missing dict key (or any key applied to a dict) raises `KeyError`; an
out-of-range index on a list or string raises `IndexError`; a string key on
a list or string, or any subscript of a number, boolean or `None`, raises
`TypeError`. Indexing a string yields its one-character substring. -/
def subscript : JSON → Key → Except PyErr JSON
  | .obj kvs, .str s =>
    match kvs.lookup s with
    | some v => .ok v
    | none => .error .keyError
  | .obj _, .idx _ => .error .keyError
  | .arr xs, .idx i =>
    match seqIndex xs.length i with
    | some j => .ok (xs.getD j .null)
    | none => .error .indexError
  | .arr _, .str _ => .error .typeError
  | .str s, .idx i =>
    match seqIndex s.data.length i with
    | some j => .ok (.str (String.mk [s.data.getD j ' ']))
    | none => .error .indexError
  | .str _, .str _ => .error .typeError
  | _, _ => .error .typeError

/-- The `while key is not NoMoreKeys` loop of `get_item`: pop keys one at a
time, subscripting the current value; `KeyError`/`IndexError` yield the
default when one was supplied (`default = some d`) and propagate otherwise;
`TypeError` is not caught by the `except (KeyError, IndexError)` clause and
always propagates. -/
def getLoop (cur : JSON) (keys : List Key) (default : Option JSON) : Except PyErr JSON :=
  match keys with
  | [] => .ok cur
  | k :: rest =>
    match subscript cur k with
    | .ok v => getLoop v rest default
    | .error .typeError => .error .typeError
    | .error e =>
      match default with
      | none => .error e
      | some d => .ok d

/-- `get_item(obj, *keys, default=RaiseException)`: type-check the root
(`TypeError` for a non-mapping, non-sequence root), then run the traversal
loop. `default = none` models the `RaiseException` sentinel (no default
supplied); `default = some d` models a supplied default. -/
def get_item (obj : JSON) (keys : List Key) (default : Option JSON) : Except PyErr JSON :=
  if isMappingOrSequence obj then getLoop obj keys default else .error .typeError

/-- Pure traversal of a key path with no default handling: the value
reached by one subscript per key, or the first error raised. Used to state
what "every step succeeds" / "some step fails" means for `get_item`. -/
def traversePath (cur : JSON) (keys : List Key) : Except PyErr JSON :=
  match keys with
  | [] => .ok cur
  | k :: rest =>
    match subscript cur k with
    | .ok v => traversePath v rest
    | .error e => .error e

/-! String helpers mirroring the `str` methods the script uses. -/

/-- The whitespace characters stripped by Python's `str.strip()` and split
on by `str.split()` (ASCII subset; the script only meets ASCII metadata). -/
def pyIsSpace (c : Char) : Bool :=
  c = ' ' || c = '\t' || c = '\n' || c = '\r' || c = '\x0b' || c = '\x0c'

/-- Python `s.strip()`: remove leading and trailing whitespace. -/
def pyStrip (s : String) : String :=
  String.mk (((s.data.dropWhile pyIsSpace).reverse.dropWhile pyIsSpace).reverse)

/-- Python `s.split()` with no separator: split on runs of whitespace,
producing no empty tokens. -/
def pySplitAux (cs : List Char) (cur : List Char) : List String :=
  match cs with
  | [] => if cur.isEmpty then [] else [String.mk cur.reverse]
  | c :: rest =>
    if pyIsSpace c then
      if cur.isEmpty then pySplitAux rest []
      else String.mk cur.reverse :: pySplitAux rest []
    else pySplitAux rest (c :: cur)

/-- Python `s.split()` on a whole string. -/
def pySplit (s : String) : List String :=
  pySplitAux s.data []

/-- Model of `data.decode().strip().split()[0]` from `main`'s validation
path: the first whitespace-separated token of the checksum resource, or
`none` when there is no token (in which case `[0]` raises `IndexError`). -/
def firstToken (s : String) : Option String :=
  (pySplit (pyStrip s)).head?

/-! SHA-256, modelling `hashlib.sha256` (FIPS 180-4). Machine words are
`Nat` reduced mod 2^32; bytes are `Nat` values below 256. -/

/-- The word modulus 2^32. -/
def M32 : Nat := 4294967296

/-- Addition mod 2^32. -/
def add32 (a b : Nat) : Nat := (a + b) % M32

/-- Right rotation of a 32-bit word by `n` places. -/
def rotr32 (n x : Nat) : Nat := ((x >>> n) ||| (x <<< (32 - n))) % M32

/-- The 64 SHA-256 round constants (fractional parts of the cube roots of
the first 64 primes). -/
def sha256K : List Nat :=
  [1116352408, 1899447441, 3049323471, 3921009573, 961987163, 1508970993,
   2453635748, 2870763221, 3624381080, 310598401, 607225278, 1426881987,
   1925078388, 2162078206, 2614888103, 3248222580, 3835390401, 4022224774,
   264347078, 604807628, 770255983, 1249150122, 1555081692, 1996064986,
   2554220882, 2821834349, 2952996808, 3210313671, 3336571891, 3584528711,
   113926993, 338241895, 666307205, 773529912, 1294757372, 1396182291,
   1695183700, 1986661051, 2177026350, 2456956037, 2730485921, 2820302411,
   3259730800, 3345764771, 3516065817, 3600352804, 4094571909, 275423344,
   430227734, 506948616, 659060556, 883997877, 958139571, 1322822218,
   1537002063, 1747873779, 1955562222, 2024104815, 2227730452, 2361852424,
   2428436474, 2756734187, 3204031479, 3329325298]

/-- The initial hash value (fractional parts of the square roots of the
first 8 primes). -/
def sha256H0 : List Nat :=
  [1779033703, 3144134277, 1013904242, 2773480762, 1359893119, 2600822924,
   528734635, 1541459225]

/-- SHA-256 message padding: append `0x80`, zero bytes to 56 mod 64, then
the bit length as an 8-byte big-endian integer. -/
def sha256Pad (msg : List Nat) : List Nat :=
  let l := msg.length
  let zeros := (64 - ((l + 9) % 64)) % 64
  let bitLen := (8 * l) % (2 ^ 64)
  msg ++ [128] ++ List.replicate zeros 0 ++
    ((List.range 8).map (fun k => (bitLen >>> (8 * (7 - k))) % 256))

/-- Pack bytes into big-endian 32-bit words, four bytes per word. -/
def bytesToWords : List Nat → List Nat
  | a :: b :: c :: d :: rest => (((a * 256 + b) * 256 + c) * 256 + d) :: bytesToWords rest
  | _ => []

/-- Split a word list into blocks of 16, with fuel for structural
recursion (the padded message always fits in `fuel = length + 1`). -/
def wordBlocks (fuel : Nat) (ws : List Nat) : List (List Nat) :=
  match fuel with
  | 0 => []
  | fuel + 1 =>
    match ws with
    | [] => []
    | _ => ws.take 16 :: wordBlocks fuel (ws.drop 16)

/-- Extend a 16-word block to the 64-word message schedule. -/
def sha256Schedule (block : List Nat) : List Nat :=
  (List.range 48).foldl
    (fun ws _ =>
      let t := ws.length
      let w15 := ws.getD (t - 15) 0
      let w2 := ws.getD (t - 2) 0
      let s0 := (rotr32 7 w15) ^^^ (rotr32 18 w15) ^^^ (w15 >>> 3)
      let s1 := (rotr32 17 w2) ^^^ (rotr32 19 w2) ^^^ (w2 >>> 10)
      ws ++ [(ws.getD (t - 16) 0 + s0 + ws.getD (t - 7) 0 + s1) % M32])
    block

/-- One round of the SHA-256 compression function on the working state
`(a, b, c, d, e, f, g, h)` with schedule word `w` and constant `k`. -/
def sha256Round (st : Nat × Nat × Nat × Nat × Nat × Nat × Nat × Nat) (kw : Nat × Nat) :
    Nat × Nat × Nat × Nat × Nat × Nat × Nat × Nat :=
  let (a, b, c, d, e, f, g, h) := st
  let (k, w) := kw
  let s1 := (rotr32 6 e) ^^^ (rotr32 11 e) ^^^ (rotr32 25 e)
  let ch := (e &&& f) ^^^ ((M32 - 1 - e) &&& g)
  let t1 := (h + s1 + ch + k + w) % M32
  let s0 := (rotr32 2 a) ^^^ (rotr32 13 a) ^^^ (rotr32 22 a)
  let mj := (a &&& b) ^^^ (a &&& c) ^^^ (b &&& c)
  let t2 := (s0 + mj) % M32
  ((t1 + t2) % M32, a, b, c, (d + t1) % M32, e, f, g)

/-- Compress one 16-word block into the running 8-word hash. -/
def sha256Compress (hash : List Nat) (block : List Nat) : List Nat :=
  let ws := sha256Schedule block
  let a0 := hash.getD 0 0
  let b0 := hash.getD 1 0
  let c0 := hash.getD 2 0
  let d0 := hash.getD 3 0
  let e0 := hash.getD 4 0
  let f0 := hash.getD 5 0
  let g0 := hash.getD 6 0
  let h0 := hash.getD 7 0
  let st := (sha256K.zip ws).foldl sha256Round (a0, b0, c0, d0, e0, f0, g0, h0)
  [add32 a0 st.1, add32 b0 st.2.1, add32 c0 st.2.2.1, add32 d0 st.2.2.2.1,
   add32 e0 st.2.2.2.2.1, add32 f0 st.2.2.2.2.2.1, add32 g0 st.2.2.2.2.2.2.1,
   add32 h0 st.2.2.2.2.2.2.2]

/-- The SHA-256 digest of a byte list, as 8 big-endian 32-bit words. -/
def sha256Words (msg : List Nat) : List Nat :=
  let ws := bytesToWords (sha256Pad msg)
  (wordBlocks (ws.length + 1) ws).foldl sha256Compress sha256H0

/-- The sixteen lowercase hexadecimal digit characters. -/
def lowercaseHexDigits : List Char := "0123456789abcdef".data

/-- A lowercase hexadecimal digit character for a value below 16. -/
def hexDigit : Nat → Char
  | 0 => '0' | 1 => '1' | 2 => '2' | 3 => '3'
  | 4 => '4' | 5 => '5' | 6 => '6' | 7 => '7'
  | 8 => '8' | 9 => '9' | 10 => 'a' | 11 => 'b'
  | 12 => 'c' | 13 => 'd' | 14 => 'e' | _ => 'f'

/-- The lowercase hexadecimal digit of the low nibble of `n`. -/
def hexChar (n : Nat) : Char := hexDigit (n % 16)

/-- Eight lowercase hex digits of a 32-bit word, most significant first. -/
def wordToHex (w : Nat) : List Char :=
  [hexChar (w >>> 28), hexChar (w >>> 24), hexChar (w >>> 20), hexChar (w >>> 16),
   hexChar (w >>> 12), hexChar (w >>> 8), hexChar (w >>> 4), hexChar w]

/-- `hashlib.sha256(bytes).hexdigest()`: the digest rendered as 64
lowercase hexadecimal characters. -/
def sha256Hex (msg : List Nat) : String :=
  String.mk ((sha256Words msg).flatMap wordToHex)

/-- The `fi.read(1024)` loop of `validate`: read the file 1024 bytes at a
time, feeding each nonempty chunk to the hash (`h.update` concatenates, so
the accumulator is the byte list fed so far). Recursion is on a fuel
argument; each iteration consumes at least one byte, so `length + 1` fuel
always completes the read. -/
def readChunks (fuel : Nat) (acc rest : List Nat) : List Nat :=
  match fuel with
  | 0 => acc
  | fuel + 1 =>
    if rest.isEmpty then acc
    else readChunks fuel (acc ++ rest.take 1024) (rest.drop 1024)

/-- `validate(filename, checksum_value)`: hash the file's bytes in fixed
1024-byte chunks and compare `checksum_value` with the hex digest using
Python string `==` (exact, case-sensitive). The file-open is abstracted to
the file's byte contents. -/
def validate (file : List Nat) (checksum_value : String) : Bool :=
  checksum_value == sha256Hex (readChunks (file.length + 1) [] file)

/-! The "what's new" changelog renderer. A release, for rendering
purposes, is the decoded JSON dict viewed as an association list of string
fields (the template engine stringifies values; the fields the script
meets are strings). -/

/-- A release dict as seen by `generate_whatsnew`: field name to value. -/
abbrev WRelease : Type := List (String × String)

/-- Field lookup in a release dict (`release.get(key)` / `release[key]`). -/
def lookupField : WRelease → String → Option String
  | [], _ => none
  | (k', v) :: rest, k => if k' = k then some v else lookupField rest k

/-- The fixed placeholder `WHATSNEW_EMPTY_NOTES`. -/
def WHATSNEW_EMPTY_NOTES : String := "No information provided."

/-- `WHATSNEW_ENTRY_TEMPLATE.substitute` with all five placeholders bound:
the literal template text with `$version` (twice), `$build`, `$date`,
`$whatsnew` and `$notesLink` replaced. -/
def whatsnewEntry (version build date notes notesLink : String) : String :=
  "<article>\n<header>\n<h2 id=\"" ++ version ++ "\">" ++ version ++ " (" ++ build ++
  ")</h2>\n<span class=\"subtitle\">" ++ date ++
  "</span>\n</header>\n<section>\n" ++ notes ++
  "\n</section>\n<footer>\n<a href=\"" ++ notesLink ++
  "\">Release Notes</a></div>\n</footer>\n</article>\n"

/-- `WHATSNEW_MAIN_TEMPLATE.substitute(product=..., content=...)`: the
outer HTML page, with `$product` (twice) and `$content` replaced. -/
def whatsnewMain (product content : String) : String :=
  "<!DOCTYPE html><html lang=\"en\">\n<head>\n<meta charset=\"utf-8\">\n" ++
  "<meta name=\"viewport\" content=\"width=device-width, initial-scale=1.0\">\n" ++
  "<title>" ++ product ++ " - What\x27s New</title>\n<style>\n" ++
  "article header \x7b margin-bottom: 1em; \x7d\n" ++
  "article header h2 \x7b margin-bottom: 0; \x7d\n" ++
  "article:not(:last-child) \x7b padding: 1em 0; border-bottom: 1px solid #ddd; \x7d\n" ++
  "article section \x7b margin-bottom: 1em; \x7d\n\n" ++
  ".subtitle \x7b font-size: 0.9em; color: #666; margin-top: 0; \x7d\n" ++
  "</style>\n<body>\n<h1>What\x27s New in " ++ product ++ "</h1>\n" ++ content ++
  "\n</body>\n</html>\n"

/-- Whether the loop body replaces the notes: `release.get('whatsnew')` is
`None` (missing) or strips to the empty string. -/
def needsPlaceholder (r : WRelease) : Bool :=
  match lookupField r "whatsnew" with
  | none => true
  | some s => pyStrip s == ""

/-- Python dict assignment `release[k] = v`: update the entry in place when
the key is present, else append it. -/
def setField (r : WRelease) (k v : String) : WRelease :=
  if (lookupField r k).isSome then
    r.map (fun p => if p.1 = k then (k, v) else p)
  else r ++ [(k, v)]

/-- The in-place mutation performed on one release by the loop body of
`generate_whatsnew`: install the placeholder when the notes are missing,
empty or whitespace-only; otherwise leave the dict untouched. -/
def normalizeRelease (r : WRelease) : WRelease :=
  if needsPlaceholder r then setField r "whatsnew" WHATSNEW_EMPTY_NOTES else r

/-- `WHATSNEW_ENTRY_TEMPLATE.substitute(**release)`: requires the five
placeholder fields; a missing one raises `KeyError`. Extra fields are
ignored by `substitute`. -/
def substituteEntry (r : WRelease) : Except PyErr String :=
  match lookupField r "version", lookupField r "build", lookupField r "date",
        lookupField r "whatsnew", lookupField r "notesLink" with
  | some v, some b, some d, some w, some n => .ok (whatsnewEntry v b d w n)
  | _, _, _, _, _ => .error .keyError

/-- The `for release in releases` loop of `generate_whatsnew`: normalise
the notes, render the entry, and collect both the rendered entries and the
caller-visible (mutated) release list; a failed substitution raises. -/
def genLoop : List WRelease → Except PyErr (List String × List WRelease)
  | [] => .ok ([], [])
  | r :: rest =>
    let r' := normalizeRelease r
    match substituteEntry r' with
    | .error e => .error e
    | .ok entry =>
      match genLoop rest with
      | .error e => .error e
      | .ok (entries, rs) => .ok (entry :: entries, r' :: rs)

/-- `generate_whatsnew(name, releases)`: the rendered page, paired with
the post-call state of the `releases` argument (the Python function
mutates the dicts in place; the pure model returns the mutated list). -/
def generate_whatsnew (name : String) (releases : List WRelease) :
    Except PyErr (String × List WRelease) :=
  match genLoop releases with
  | .error e => .error e
  | .ok (entries, rs) => .ok (whatsnewMain name (String.join entries), rs)

/-- Whether a release dict carries all five fields the entry template
requires. -/
def fieldsOk (r : WRelease) : Bool :=
  (lookupField r "version").isSome && (lookupField r "build").isSome &&
  (lookupField r "date").isSome && (lookupField r "whatsnew").isSome &&
  (lookupField r "notesLink").isSome

/-- The entry rendered from a release dict, reading each required field
(with a dummy default that is never used when `fieldsOk` holds). -/
def entryHtml (r : WRelease) : String :=
  whatsnewEntry ((lookupField r "version").getD "") ((lookupField r "build").getD "")
    ((lookupField r "date").getD "") ((lookupField r "whatsnew").getD "")
    ((lookupField r "notesLink").getD "")

/-- Whether an `Except` computation succeeded. -/
def exceptOk {ε α : Type} : Except ε α → Bool
  | .ok _ => true
  | .error _ => false

/-! The release selector of `main` for the `download`, `download_url`,
`checksum` and `checksum_url` commands. -/

/-- A release as consumed by the selector and the download branches:
`version` and `build` are the string fields the loop condition reads, and
`rest` is the full decoded JSON object on which `get_item` is invoked for
`downloads.linux.link` and `downloads.linux.checksumLink`. -/
structure Release where
  version : String
  build : String
  rest : JSON

/-- Python truthiness of an optional string argument: `None` and the empty
string are falsy. -/
def optTruthy : Option String → Bool
  | none => false
  | some s => !(s == "")

/-- The loop condition of the selector, combining
`get_first_match = not (version or build)` with
`(version and release['version'] == version) or (build and release['build'] == build)`. -/
def matchCond (tgtVersion tgtBuild : Option String) (r : Release) : Bool :=
  let getFirstMatch := !(optTruthy tgtVersion || optTruthy tgtBuild)
  getFirstMatch ||
  (match tgtVersion with
   | some v => !(v == "") && r.version == v
   | none => false) ||
  (match tgtBuild with
   | some b => !(b == "") && r.build == b
   | none => false)

/-- The `for release in releases[code]` scan: the first release satisfying
the condition is acted on and the loop `break`s; if the loop exhausts the
list, the `for`/`else` clause runs (`none`). -/
def selectLoop (cond : Release → Bool) : List Release → Option Release
  | [] => none
  | r :: rest => if cond r then some r else selectLoop cond rest

/-- The release selected by `main` for the given optional version/build
targets, or `none` when the loop falls through to its `else` clause. -/
def selectRelease (tgtVersion tgtBuild : Option String) (rs : List Release) : Option Release :=
  selectLoop (matchCond tgtVersion tgtBuild) rs

/-- The selector exactly as the claim words it ("neither a target version
nor a target build is given" read as absence of the argument): with no
targets, the head of the list; otherwise the first release whose version
equals the requested version or whose build equals the requested build. -/
def claimSelect (tgtVersion tgtBuild : Option String) (rs : List Release) : Option Release :=
  if tgtVersion = none ∧ tgtBuild = none then rs.head?
  else rs.find? (fun r => tgtVersion == some r.version || tgtBuild == some r.build)

/-- The selector as the amended claim words it: an empty-string target
counts as absent (Python truthiness), and with some nonempty target given,
the first release whose version or build equals the respective nonempty
target is chosen. -/
def claimSelectTruthy (tgtVersion tgtBuild : Option String) (rs : List Release) : Option Release :=
  if optTruthy tgtVersion = false ∧ optTruthy tgtBuild = false then rs.head?
  else rs.find? (fun r =>
    (optTruthy tgtVersion && tgtVersion == some r.version) ||
    (optTruthy tgtBuild && tgtBuild == some r.build))

/-! The `main` dispatcher. Network I/O is abstracted into a `World`: the
decoded `releases[code]` list (both as selector records and as rendering
dicts — two views of the same response) and the bytes/text served at each
URL. The local filesystem is an explicit association list threaded through
the computation; `download` writes to it. -/

/-- The CLI subcommands. -/
inductive Command where
  | version : Command
  | build : Command
  | download : Command
  | download_url : Command
  | checksum : Command
  | checksum_url : Command
  | generate_whatsnew : Command
deriving DecidableEq

/-- The arguments `main` receives after parsing (the product `code` and
the `latest` flag only shape the request URL, which is abstracted into the
`World`, so they are omitted). -/
structure Args where
  command : Command
  tgtVersion : Option String
  tgtBuild : Option String
  dest : Option String
  skipValidation : Bool
  name : Option String

/-- The external world: the decoded releases for the requested product
code, the same releases as rendering dicts for `generate_whatsnew`, and
the contents served at each URL (`urlData` for binary downloads, `urlStr`
for the decoded text of `read`). -/
structure World where
  releases : List Release
  wnReleases : List WRelease
  urlData : String → List Nat
  urlStr : String → String

/-- The local filesystem: path to byte contents; a write shadows earlier
entries (`open(path, 'wb')` truncates). -/
abbrev FS : Type := List (String × List Nat)

/-- Write a file. -/
def fsWrite (fs : FS) (path : String) (contents : List Nat) : FS :=
  (path, contents) :: fs

/-- Read a file's bytes (empty for a missing file; `main` only reads files
it has just written). -/
def fsReadD (fs : FS) (path : String) : List Nat :=
  (List.lookup path fs).getD []

/-- The observable result of a `main` run that returned normally: the exit
status and the lines printed to stdout and stderr. -/
structure MainResult where
  exit : Nat
  stdout : List String
  stderr : List String
deriving DecidableEq

/-- Model of `urlparse(url).path` for the http(s) URLs the script builds:
drop the fragment and query, then the `scheme://authority` part; the path
starts at the first slash after the authority (empty when there is none). -/
def urlPath (url : String) : String :=
  let noFrag := (url.splitOn "#").headD ""
  let noQuery := (noFrag.splitOn "?").headD ""
  match noQuery.splitOn "://" with
  | [] => noQuery
  | [_] => noQuery
  | _ :: rest =>
    let after := String.intercalate "://" rest
    match after.splitOn "/" with
    | [] => ""
    | [_] => ""
    | _ :: segs => "/" ++ String.intercalate "/" segs

/-- `get_url_filename(url)`: `os.path.basename` of the URL's path — the
part after the last slash. -/
def get_url_filename (url : String) : String :=
  let p := urlPath url
  (p.splitOn "/").getLastD p

/-- `os.path.join(dest, filename)` for the shapes the script produces: an
absolute filename wins; otherwise the two are joined with a single `/`. -/
def pathJoin (dest filename : String) : String :=
  if filename.startsWith "/" then filename
  else if dest == "" then filename
  else if dest.endsWith "/" then dest ++ filename
  else dest ++ "/" ++ filename

/-- `kwargs.get('dest') or '.'`: Python truthiness makes `None` and the
empty string fall back to the current directory. -/
def destOrDot (dest : Option String) : String :=
  match dest with
  | some s => if s == "" then "." else s
  | none => "."

/-- What `print(value)` emits for a traversal result: strings print
verbatim; other decoded values print via `str()` (containers are
abstracted to an opaque rendering — no claim depends on their text). -/
def pyPrint : JSON → String
  | .str s => s
  | .num n => toString n
  | .bool true => "True"
  | .bool false => "False"
  | .null => "None"
  | .arr _ => "<list>"
  | .obj _ => "<dict>"

/-- The key path `['downloads', 'linux', 'link']`. -/
def linkPath : List Key := [.str "downloads", .str "linux", .str "link"]

/-- The key path `['downloads', 'linux', 'checksumLink']`. -/
def checksumLinkPath : List Key := [.str "downloads", .str "linux", .str "checksumLink"]

/-- The body executed for the matched release (the `if match:` block):
dispatch on the four fetch commands, performing the download and optional
checksum validation for `download`, and printing URLs or checksum text for
the others. Any uncaught Python exception is an `Except.error`. -/
def fetchAction (w : World) (a : Args) (r : Release) (fs : FS) :
    Except PyErr (MainResult × FS) :=
  match a.command with
  | .download =>
    match get_item r.rest linkPath none with
    | .error e => .error e
    | .ok (.str url) =>
      let filename := pathJoin (destOrDot a.dest) (get_url_filename url)
      let fs1 := fsWrite fs filename (w.urlData url)
      if a.skipValidation then .ok (⟨0, [filename], []⟩, fs1)
      else
        match get_item r.rest checksumLinkPath none with
        | .error e => .error e
        | .ok (.str curl) =>
          match firstToken (w.urlStr curl) with
          | none => .error .indexError
          | some c =>
            if validate (fsReadD fs1 filename) c then .ok (⟨0, [filename], []⟩, fs1)
            else .ok (⟨2, [], ["Checksum validation failed"]⟩, fs1)
        | .ok _ => .error .typeError
    | .ok _ => .error .typeError
  | .download_url =>
    match get_item r.rest linkPath none with
    | .error e => .error e
    | .ok j => .ok (⟨0, [pyPrint j], []⟩, fs)
  | .checksum =>
    match get_item r.rest checksumLinkPath none with
    | .error e => .error e
    | .ok (.str curl) =>
      if optTruthy a.dest then
        let filename := pathJoin (a.dest.getD "") (get_url_filename curl)
        .ok (⟨0, [filename], []⟩, fsWrite fs filename (w.urlData curl))
      else .ok (⟨0, [pyStrip (w.urlStr curl)], []⟩, fs)
    | .ok _ => .error .typeError
  | .checksum_url =>
    match get_item r.rest checksumLinkPath none with
    | .error e => .error e
    | .ok j => .ok (⟨0, [pyPrint j], []⟩, fs)
  | _ => .error .typeError

/-- `kwargs.get('name')` as the template's `product` value: a missing name
is `None`, which `Template.substitute` stringifies as "None". -/
def pyPrintName (name : Option String) : String :=
  name.getD "None"

/-- `main(command, code, ...)` after the HTTP fetch: dispatch on the
subcommand. `version`/`build` print the first release's field (an empty
releases list raises `IndexError`); the four fetch commands run the
selector loop, reporting "Could not find matching release" with exit 1
from the `for`/`else` clause; `generate_whatsnew` renders the page.
A normal return carries exit status, output lines and the filesystem. -/
def mainModel (w : World) (a : Args) (fs : FS) : Except PyErr (MainResult × FS) :=
  match a.command with
  | .version =>
    match w.releases with
    | [] => .error .indexError
    | r :: _ => .ok (⟨0, [r.version], []⟩, fs)
  | .build =>
    match w.releases with
    | [] => .error .indexError
    | r :: _ => .ok (⟨0, [r.build], []⟩, fs)
  | .generate_whatsnew =>
    match generate_whatsnew (pyPrintName a.name) w.wnReleases with
    | .error e => .error e
    | .ok (out, _) => .ok (⟨0, [out], []⟩, fs)
  | _ =>
    match selectRelease a.tgtVersion a.tgtBuild w.releases with
    | none => .ok (⟨1, [], ["Could not find matching release"]⟩, fs)
    | some r => fetchAction w a r fs

/-! Spec-side classification of `main`'s exit statuses, following the
spec's words: 1 exactly when a fetch command finds no matching release,
2 exactly when `download` reaches checksum validation and it fails, and
0 for every other normal return. -/

/-- The four commands that run the release selector. -/
def isFetchCmd : Command → Bool
  | .download => true
  | .download_url => true
  | .checksum => true
  | .checksum_url => true
  | _ => false

/-- "No matching release found": a fetch command whose selector scan falls
through to the `for`/`else` clause. -/
def noMatchB (w : World) (a : Args) : Bool :=
  isFetchCmd a.command && (selectRelease a.tgtVersion a.tgtBuild w.releases).isNone

/-- "Checksum validation failed": the `download` command selected a
release, validation was not skipped, every step up to the comparison
succeeded, and the recomputed digest does not match the fetched checksum. -/
def valFailB (w : World) (a : Args) (fs : FS) : Bool :=
  match a.command with
  | .download =>
    match selectRelease a.tgtVersion a.tgtBuild w.releases with
    | none => false
    | some r =>
      !a.skipValidation &&
      (match get_item r.rest linkPath none with
       | .ok (.str url) =>
         (match get_item r.rest checksumLinkPath none with
          | .ok (.str curl) =>
            (match firstToken (w.urlStr curl) with
             | some c =>
               let filename := pathJoin (destOrDot a.dest) (get_url_filename url)
               !(validate (fsReadD (fsWrite fs filename (w.urlData url)) filename) c)
             | none => false)
          | _ => false)
       | _ => false)
  | _ => false

/-- The exit status the spec prescribes for a normal return. -/
def c3Exit (w : World) (a : Args) (fs : FS) : Nat :=
  if noMatchB w a then 1 else if valFailB w a fs then 2 else 0

/-- The stderr diagnostics the spec prescribes for a normal return. -/
def c3Stderr (w : World) (a : Args) (fs : FS) : List String :=
  if noMatchB w a then ["Could not find matching release"]
  else if valFailB w a fs then ["Checksum validation failed"]
  else []

/-- Sample release dicts used by concrete witnesses. -/
def sampleRelease1 : WRelease :=
  [("version", "2024.1"), ("build", "241.1"), ("date", "2024-03-01"),
   ("whatsnew", "<p>New stuff</p>"), ("notesLink", "https://x/1")]

/-- A sample release whose notes are whitespace-only. -/
def sampleRelease2 : WRelease :=
  [("version", "2023.3"), ("build", "233.9"), ("date", "2023-12-01"),
   ("whatsnew", "   "), ("notesLink", "https://x/2")]

/-- A sample release with no notes field at all. -/
def sampleRelease3 : WRelease :=
  [("version", "2023.2"), ("build", "232.4"), ("date", "2023-08-01"),
   ("notesLink", "https://x/3")]

/-- A sample decoded release object carrying linux download links, used by
concrete witnesses. -/
def sampleRest : JSON :=
  .obj [("downloads", .obj [("linux", .obj
    [("link", .str "http://h/f.bin"),
     ("checksumLink", .str "http://h/f.sha256")])])]

/-- A sample selector release. -/
def sampleSelRelease : Release := ⟨"1.0", "B1", sampleRest⟩

/-- A sample world: one release, every URL serving empty bytes, every
checksum resource reading "deadbeef". -/
def sampleWorld : World :=
  ⟨[sampleSelRelease], [], fun _ => [], fun _ => "deadbeef"⟩

/-- Arguments for a plain `download` with no targets and validation on. -/
def sampleArgsDownload : Args := ⟨.download, none, none, none, false, none⟩

/-- Arguments for a plain `download_url` with no targets. -/
def sampleArgsUrl : Args := ⟨.download_url, none, none, none, false, none⟩

/-! Helper lemmas. -/

/-- The traversal loop with no default is exactly the pure path traversal. -/
theorem getLoop_none (keys : List Key) : ∀ cur : JSON,
    getLoop cur keys none = traversePath cur keys := by
  induction keys with
  | nil => intro cur; rfl
  | cons k rest ih =>
    intro cur
    simp only [getLoop, traversePath]
    cases subscript cur k with
    | ok v => exact ih v
    | error e => cases e <;> rfl

/-- The traversal loop with a default returns the leaf on success, the
default on a `KeyError`/`IndexError`, and propagates a `TypeError`. -/
theorem getLoop_some (keys : List Key) (d : JSON) : ∀ cur : JSON,
    getLoop cur keys (some d) =
      (match traversePath cur keys with
       | .ok v => .ok v
       | .error .typeError => .error .typeError
       | .error _ => .ok d) := by
  induction keys with
  | nil => intro cur; rfl
  | cons k rest ih =>
    intro cur
    simp only [getLoop, traversePath]
    cases subscript cur k with
    | ok v => exact ih v
    | error e => cases e <;> rfl

/-- C2: for every nested structure and key path, `get_item` with no
default propagates the underlying `KeyError`/`IndexError` of the first
failing step and returns the reached leaf when every step succeeds, while
`get_item` with a default returns the leaf when every step succeeds and
the default exactly when a step fails with a missing key or out-of-range
index (a `TypeError` step still propagates, which the claim's failure
wording — "a missing key or out-of-range index" — does not cover). -/
theorem C2_get_item_default (obj : JSON) (keys : List Key) (d : JSON)
    (h : isMappingOrSequence obj = true) :
    get_item obj keys none = traversePath obj keys ∧
    get_item obj keys (some d) =
      (match traversePath obj keys with
       | .ok v => .ok v
       | .error .typeError => .error .typeError
       | .error _ => .ok d) := by
  constructor
  · simp [get_item, h, getLoop_none]
  · simp [get_item, h, getLoop_some]

/-- Witness for C2 at a concrete structure: `{"a": [7]}` traversed by
`["a", 0]` yields the leaf; by `["a", 5]` the bad index yields the default
when supplied and `IndexError` when not. -/
theorem C2_get_item_default_witness :
    (isMappingOrSequence (JSON.obj [("a", JSON.arr [JSON.num 7])]) = true ∧
     get_item (JSON.obj [("a", JSON.arr [JSON.num 7])]) [Key.str "a", Key.idx 0]
       (some (JSON.num 99)) = .ok (JSON.num 7)) ∧
    get_item (JSON.obj [("a", JSON.arr [JSON.num 7])]) [Key.str "a", Key.idx 5]
      (some (JSON.num 99)) = .ok (JSON.num 99) ∧
    get_item (JSON.obj [("a", JSON.arr [JSON.num 7])]) [Key.str "a", Key.idx 5]
      none = .error .indexError :=
  ⟨⟨rfl, (C2_get_item_default (JSON.obj [("a", JSON.arr [JSON.num 7])])
      [Key.str "a", Key.idx 0] (JSON.num 99) rfl).2.trans rfl⟩,
   (C2_get_item_default (JSON.obj [("a", JSON.arr [JSON.num 7])])
      [Key.str "a", Key.idx 5] (JSON.num 99) rfl).2.trans rfl,
   (C2_get_item_default (JSON.obj [("a", JSON.arr [JSON.num 7])])
      [Key.str "a", Key.idx 5] (JSON.num 99) rfl).1.trans rfl⟩

/-- C7: the per-entry template succeeds exactly on releases carrying all
five required fields (`version`, `build`, `date`, `whatsnew`,
`notesLink`); a release missing any of them fails that entry's render with
a `KeyError`, and no further field is required. -/
theorem C7_entry_template_fields (r : WRelease) :
    exceptOk (substituteEntry r) = fieldsOk r := by
  unfold substituteEntry fieldsOk
  cases h1 : lookupField r "version" <;>
    cases h2 : lookupField r "build" <;>
      cases h3 : lookupField r "date" <;>
        cases h4 : lookupField r "whatsnew" <;>
          cases h5 : lookupField r "notesLink" <;>
            simp [exceptOk]

/-- C8: `get_item` rejects a root that is neither a mapping nor a sequence
with a `TypeError`, for every key path (including the empty one, so before
any traversal step) and whether or not a default was supplied. -/
theorem C8_get_item_typecheck (obj : JSON) (keys : List Key) (d : Option JSON)
    (h : isMappingOrSequence obj = false) :
    get_item obj keys d = .error .typeError := by
  simp [get_item, h]

/-- Witness for C8: the number `5` is rejected even with no keys to
traverse and a default supplied. -/
theorem C8_get_item_typecheck_witness :
    isMappingOrSequence (JSON.num 5) = false ∧
    get_item (JSON.num 5) [] (some JSON.null) = .error .typeError :=
  ⟨rfl, C8_get_item_typecheck (JSON.num 5) [] (some JSON.null) rfl⟩

/-- C10: when the traversal reaches an intermediate value that is neither
a mapping nor a sequence, subscripting it raises a `TypeError`, which
propagates to the caller even when a default was supplied — only
`KeyError` and `IndexError` are converted to the default. -/
theorem C10_intermediate_typeerror (obj : JSON) (keys : List Key) (d : JSON)
    (h : traversePath obj keys = .error .typeError) :
    get_item obj keys (some d) = .error .typeError := by
  unfold get_item
  by_cases hr : isMappingOrSequence obj
  · rw [if_pos hr, getLoop_some, h]
  · rw [if_neg hr]

/-- Witness for C10: in `{"a": 1}`, the path `["a", "b"]` subscripts the
number `1`, and the `TypeError` overrides the supplied default. -/
theorem C10_intermediate_typeerror_witness :
    traversePath (JSON.obj [("a", JSON.num 1)]) [Key.str "a", Key.str "b"] =
      .error .typeError ∧
    get_item (JSON.obj [("a", JSON.num 1)]) [Key.str "a", Key.str "b"]
      (some JSON.null) = .error .typeError :=
  ⟨rfl, C10_intermediate_typeerror (JSON.obj [("a", JSON.num 1)])
    [Key.str "a", Key.str "b"] JSON.null rfl⟩

/-- The selector scan is `List.find?` on the loop condition. -/
theorem selectLoop_eq_find (p : Release → Bool) (rs : List Release) :
    selectLoop p rs = rs.find? p := by
  induction rs with
  | nil => rfl
  | cons r rest ih => by_cases hp : p r <;> simp [selectLoop, List.find?, hp, ih]

/-- C1, counterexample: with the requested version being the empty string
(`-v ''`) and no build, the code's truthiness test `not (version or
build)` treats the version as absent and selects the first release
outright, while the claim as stated requires the first release whose
version equals `""` — and no such release exists here. -/
theorem C1_counterexample :
    selectRelease (some "") none [⟨"2023.1", "1", JSON.null⟩] =
      some ⟨"2023.1", "1", JSON.null⟩ ∧
    claimSelect (some "") none [⟨"2023.1", "1", JSON.null⟩] = none :=
  ⟨rfl, rfl⟩

/-- String `==` is symmetric. -/
theorem strBeqComm (a b : String) : (a == b) = (b == a) := by
  by_cases h : a = b <;> simp [h, eq_comm]

/-- Pointwise form of the loop condition when some target is truthy: the
`get_first_match` disjunct is off, and each comparison fires only for a
truthy (nonempty) target. -/
theorem matchCond_truthy (v b : Option String) (r : Release)
    (h : (optTruthy v || optTruthy b) = true) :
    matchCond v b r =
      ((optTruthy v && v == some r.version) || (optTruthy b && b == some r.build)) := by
  cases v with
  | none =>
    cases b with
    | none => simp [optTruthy] at h
    | some s => simp [matchCond, optTruthy, strBeqComm] at h ⊢; simp [h]
  | some t =>
    cases b with
    | none =>
      simp [optTruthy] at h
      simp [matchCond, optTruthy, strBeqComm, h]
    | some s =>
      simp [matchCond, optTruthy, strBeqComm]
      by_cases ht : t = "" <;> by_cases hs : s = "" <;>
        simp_all [optTruthy, show ∀ x : String, ¬x = "" → (x == "") = false from
          fun x hx => by simp [hx]]

/-- C1, amended: the selector picks the first release in list order when
neither a nonempty target version nor a nonempty target build is given (an
empty-string target counts as absent, by Python truthiness), and otherwise
picks the first release whose version equals the nonempty requested
version or whose build equals the nonempty requested build; being a single
`Option`-valued selection, at most one release is acted upon, and exactly
the selected one when a match exists. -/
theorem C1_release_selector_amended (v b : Option String) (rs : List Release) :
    selectRelease v b rs = claimSelectTruthy v b rs := by
  unfold selectRelease claimSelectTruthy
  rw [selectLoop_eq_find]
  by_cases hv : optTruthy v = false
  · by_cases hb : optTruthy b = false
    · rw [if_pos ⟨hv, hb⟩]
      have hcond : ∀ r, matchCond v b r = true := by
        intro r; simp [matchCond, hv, hb]
      cases rs with
      | nil => rfl
      | cons r rest => simp [List.find?, hcond]
    · have hb' : optTruthy b = true := by revert hb; cases optTruthy b <;> simp
      rw [if_neg (fun hc => hb hc.2)]
      congr 1
      funext r
      exact matchCond_truthy v b r (by simp [hb'])
  · have hv' : optTruthy v = true := by revert hv; cases optTruthy v <;> simp
    rw [if_neg (fun hc => hv hc.1)]
    congr 1
    funext r
    exact matchCond_truthy v b r (by simp [hv'])

/-- With enough fuel, the chunked read loop feeds exactly the whole file
to the hash: each iteration consumes 1024 bytes (or ends the loop), so
`h.update`'s accumulated input is the file's byte list. -/
theorem readChunks_eq (fuel : Nat) : ∀ acc rest : List Nat,
    rest.length ≤ fuel * 1024 → readChunks fuel acc rest = acc ++ rest := by
  induction fuel with
  | zero =>
    intro acc rest h
    have : rest = [] := List.length_eq_zero.mp (Nat.le_zero.mp (by simpa using h))
    simp [readChunks, this]
  | succ f ih =>
    intro acc rest h
    cases rest with
    | nil => simp [readChunks]
    | cons x xs =>
      have hlen : ((x :: xs).drop 1024).length ≤ f * 1024 := by
        simp only [List.length_drop, List.length_cons]
        simp only [List.length_cons] at h
        omega
      simp only [readChunks, List.isEmpty_cons, Bool.false_eq_true, if_false]
      rw [ih _ _ hlen, List.append_assoc, List.take_append_drop]

/-- The compression step always yields an 8-word hash. -/
theorem sha256Compress_length (hash block : List Nat) :
    (sha256Compress hash block).length = 8 := rfl

/-- The SHA-256 digest is 8 words. -/
theorem sha256Words_length (msg : List Nat) : (sha256Words msg).length = 8 := by
  have main : ∀ (bs : List (List Nat)) (acc : List Nat), acc.length = 8 →
      (List.foldl sha256Compress acc bs).length = 8 := by
    intro bs
    induction bs with
    | nil => intro acc h; simpa using h
    | cons blk rest ih =>
      intro acc _
      simpa using ih (sha256Compress acc blk) (sha256Compress_length acc blk)
  show (List.foldl sha256Compress sha256H0
    (wordBlocks ((bytesToWords (sha256Pad msg)).length + 1)
      (bytesToWords (sha256Pad msg)))).length = 8
  exact main _ sha256H0 rfl

/-- Every character `hexDigit` produces is a lowercase hex digit. -/
theorem hexDigit_mem (m : Nat) : hexDigit m ∈ lowercaseHexDigits := by
  unfold hexDigit
  split <;> decide

/-- The hex rendering of a word list has 8 characters per word. -/
theorem flatMap_wordToHex_length (l : List Nat) :
    (l.flatMap wordToHex).length = 8 * l.length := by
  induction l with
  | nil => rfl
  | cons w rest ih => simp [List.flatMap_cons, ih, wordToHex]; ring

/-- C4: `validate` returns true exactly when the candidate checksum string
is character-for-character equal to the SHA-256 digest of the file's bytes
rendered in hexadecimal — the chunked 1024-byte read feeds the whole file
to the hash — and that digest string is 64 characters drawn from the
lowercase hex digits, so the string comparison is an exact, case-sensitive
comparison with a lowercase hex digest. -/
theorem C4_validate_sha256 (file : List Nat) (checksum_value : String) :
    validate file checksum_value = (checksum_value == sha256Hex file) ∧
    (sha256Hex file).length = 64 ∧
    ∀ ch ∈ (sha256Hex file).data, ch ∈ lowercaseHexDigits := by
  refine ⟨?_, ?_, ?_⟩
  · unfold validate
    rw [readChunks_eq (file.length + 1) [] file (by omega)]
    rfl
  · show ((sha256Words file).flatMap wordToHex).length = 64
    rw [flatMap_wordToHex_length, sha256Words_length]
  · intro ch hch
    have hch' : ch ∈ (sha256Words file).flatMap wordToHex := hch
    rw [List.mem_flatMap] at hch'
    obtain ⟨w, _, hw⟩ := hch'
    simp only [wordToHex, List.mem_cons, List.not_mem_nil, or_false] at hw
    rcases hw with rfl | rfl | rfl | rfl | rfl | rfl | rfl | rfl <;>
      exact hexDigit_mem _

/-- Replacing the entries keyed `k` does not change lookups of other keys. -/
theorem lookup_map_other (k v k' : String) (h : ¬k' = k) : ∀ r : WRelease,
    lookupField (r.map (fun p => if p.1 = k then (k, v) else p)) k' = lookupField r k' := by
  intro r
  induction r with
  | nil => rfl
  | cons p ps ih =>
    simp only [List.map_cons]
    by_cases hp : p.1 = k
    · rw [if_pos hp]
      simp only [lookupField]
      rw [if_neg (fun he : k = k' => h he.symm),
          if_neg (fun he : p.1 = k' => h (he ▸ hp))]
      exact ih
    · rw [if_neg hp]
      simp only [lookupField]
      by_cases hk : p.1 = k'
      · rw [if_pos hk, if_pos hk]
      · rw [if_neg hk, if_neg hk]; exact ih

/-- Appending an entry keyed `k` does not change lookups of other keys. -/
theorem lookup_append_other (k v k' : String) (h : ¬k' = k) : ∀ r : WRelease,
    lookupField (r ++ [(k, v)]) k' = lookupField r k' := by
  intro r
  induction r with
  | nil =>
    simp only [List.nil_append, lookupField]
    rw [if_neg (fun he : k = k' => h he.symm)]
  | cons p ps ih =>
    simp only [List.cons_append, lookupField]
    by_cases hk : p.1 = k'
    · rw [if_pos hk, if_pos hk]
    · rw [if_neg hk, if_neg hk]; exact ih

/-- Replacing the entries keyed `k` makes a present key look up the new
value. -/
theorem lookup_map_self (k v : String) : ∀ r : WRelease,
    (lookupField r k).isSome = true →
    lookupField (r.map (fun p => if p.1 = k then (k, v) else p)) k = some v := by
  intro r
  induction r with
  | nil => intro hp; simp [lookupField] at hp
  | cons p ps ih =>
    intro hp
    simp only [List.map_cons]
    by_cases hpk : p.1 = k
    · rw [if_pos hpk]
      simp [lookupField]
    · rw [if_neg hpk]
      simp only [lookupField, if_neg hpk]
      apply ih
      simpa only [lookupField, if_neg hpk] using hp

/-- Appending an entry keyed `k` makes an absent key look up the new
value. -/
theorem lookup_append_self (k v : String) : ∀ r : WRelease,
    lookupField r k = none →
    lookupField (r ++ [(k, v)]) k = some v := by
  intro r
  induction r with
  | nil => intro _; simp [lookupField]
  | cons p ps ih =>
    intro hp
    by_cases hpk : p.1 = k
    · rw [show lookupField (p :: ps) k = some p.2 from by
        simp [lookupField, if_pos hpk]] at hp
      exact absurd hp (by simp)
    · simp only [List.cons_append, lookupField, if_neg hpk]
      apply ih
      simpa only [lookupField, if_neg hpk] using hp

/-- Fields other than `whatsnew` are untouched by the loop's mutation. -/
theorem lookup_normalize_other (r : WRelease) (k : String) (hk : ¬k = "whatsnew") :
    lookupField (normalizeRelease r) k = lookupField r k := by
  unfold normalizeRelease
  by_cases hn : needsPlaceholder r
  · rw [if_pos hn]
    unfold setField
    split
    · exact lookup_map_other "whatsnew" WHATSNEW_EMPTY_NOTES k hk r
    · exact lookup_append_other "whatsnew" WHATSNEW_EMPTY_NOTES k hk r
  · rw [if_neg hn]

/-- The `whatsnew` field after the loop's mutation: the placeholder when
the notes were missing, empty or whitespace-only, unchanged otherwise. -/
theorem lookup_normalize_whatsnew (r : WRelease) :
    lookupField (normalizeRelease r) "whatsnew" =
      (if needsPlaceholder r then some WHATSNEW_EMPTY_NOTES
       else lookupField r "whatsnew") := by
  unfold normalizeRelease
  by_cases hn : needsPlaceholder r
  · rw [if_pos hn, if_pos hn]
    unfold setField
    by_cases hs : (lookupField r "whatsnew").isSome
    · rw [if_pos hs]
      exact lookup_map_self "whatsnew" WHATSNEW_EMPTY_NOTES r hs
    · rw [if_neg hs]
      exact lookup_append_self "whatsnew" WHATSNEW_EMPTY_NOTES r
        (Option.not_isSome_iff_eq_none.mp (by simpa using hs))
  · rw [if_neg hn, if_neg hn]

/-- A release with all required fields renders to its entry HTML. -/
theorem substituteEntry_ok (r : WRelease) (h : fieldsOk r = true) :
    substituteEntry r = .ok (entryHtml r) := by
  unfold fieldsOk at h
  simp only [Bool.and_eq_true, Option.isSome_iff_exists] at h
  obtain ⟨⟨⟨⟨⟨v, hv⟩, b, hb⟩, d, hd⟩, w, hw⟩, n, hn⟩ := h
  simp [substituteEntry, entryHtml, hv, hb, hd, hw, hn]

/-- The render loop on a list of well-formed releases: every entry
renders, in input order, from its normalised release, and the mutated list
is the pointwise normalisation. -/
theorem genLoop_ok (rs : List WRelease)
    (h : rs.all (fun r => fieldsOk (normalizeRelease r)) = true) :
    genLoop rs = .ok (rs.map (fun r => entryHtml (normalizeRelease r)),
      rs.map normalizeRelease) := by
  induction rs with
  | nil => rfl
  | cons r rest ih =>
    simp only [List.all_cons, Bool.and_eq_true] at h
    simp only [genLoop, substituteEntry_ok _ h.1, ih h.2, List.map_cons]

/-- The mutated list returned by the render loop is the pointwise
normalisation of the input, whenever the loop completes. -/
theorem genLoop_snd : ∀ (rs : List WRelease) (es : List String) (rs2 : List WRelease),
    genLoop rs = .ok (es, rs2) → rs2 = rs.map normalizeRelease := by
  intro rs
  induction rs with
  | nil =>
    intro es rs2 h
    simp only [genLoop, Except.ok.injEq, Prod.mk.injEq] at h
    simp [← h.2]
  | cons r rest ih =>
    intro es rs2 h
    simp only [genLoop] at h
    cases hs : substituteEntry (normalizeRelease r) with
    | error e => rw [hs] at h; exact absurd h (by simp)
    | ok entry =>
      rw [hs] at h
      cases hg : genLoop rest with
      | error e => rw [hg] at h; exact absurd h (by simp)
      | ok pr =>
        obtain ⟨es', rs''⟩ := pr
        rw [hg] at h
        simp only [Except.ok.injEq, Prod.mk.injEq] at h
        rw [List.map_cons, ← h.2, ih es' rs'' hg]

/-- C6: on releases that carry the template's fields once the notes are
normalised (the loop installs a `whatsnew` value when it is missing, so
only the other four fields need to be present), `generate_whatsnew`
renders each release after normalising missing/empty/whitespace-only notes
to the fixed placeholder "No information provided.", concatenates the
per-entry renderings in input order, and embeds the concatenation in the
outer page template parameterised by the product display name. -/
theorem C6_generate_whatsnew_render (pname : String) (rs : List WRelease)
    (h : rs.all (fun r => fieldsOk (normalizeRelease r)) = true) :
    generate_whatsnew pname rs =
      .ok (whatsnewMain pname
            (String.join (rs.map (fun r => entryHtml (normalizeRelease r)))),
           rs.map normalizeRelease) := by
  unfold generate_whatsnew
  rw [genLoop_ok rs h]

/-- Witness for C6 on two concrete releases, the second with
whitespace-only notes: the render succeeds with the entries in input
order, and the second release's notes field is normalised to the
placeholder "No information provided.". -/
theorem C6_generate_whatsnew_render_witness :
    ([sampleRelease1, sampleRelease2, sampleRelease3].all
       (fun r => fieldsOk (normalizeRelease r)) = true ∧
     generate_whatsnew "IDEA" [sampleRelease1, sampleRelease2, sampleRelease3] =
       .ok (whatsnewMain "IDEA"
             (String.join ([sampleRelease1, sampleRelease2, sampleRelease3].map
               (fun r => entryHtml (normalizeRelease r)))),
            [sampleRelease1, sampleRelease2, sampleRelease3].map normalizeRelease)) ∧
    lookupField (normalizeRelease sampleRelease2) "whatsnew" =
      some "No information provided." ∧
    lookupField (normalizeRelease sampleRelease3) "whatsnew" =
      some "No information provided." :=
  ⟨⟨rfl, C6_generate_whatsnew_render "IDEA"
     [sampleRelease1, sampleRelease2, sampleRelease3] rfl⟩, rfl, rfl⟩

/-- C9: when `generate_whatsnew` completes, its `releases` argument has
been mutated in place: the caller-visible list is the pointwise
normalisation of the input, where normalisation sets the `whatsnew` field
to the placeholder exactly for releases whose notes were missing, empty or
whitespace-only, and leaves every other field of every release unchanged. -/
theorem C9_generate_whatsnew_mutation (pname : String) (rs : List WRelease)
    (out : String) (rs' : List WRelease)
    (h : generate_whatsnew pname rs = .ok (out, rs')) :
    rs' = rs.map normalizeRelease ∧
    (∀ (r : WRelease) (k : String), ¬k = "whatsnew" →
      lookupField (normalizeRelease r) k = lookupField r k) ∧
    (∀ r : WRelease, lookupField (normalizeRelease r) "whatsnew" =
      (if needsPlaceholder r then some WHATSNEW_EMPTY_NOTES
       else lookupField r "whatsnew")) := by
  refine ⟨?_, fun r k hk => lookup_normalize_other r k hk,
    fun r => lookup_normalize_whatsnew r⟩
  unfold generate_whatsnew at h
  cases hg : genLoop rs with
  | error e => rw [hg] at h; exact absurd h (by simp)
  | ok pr =>
    obtain ⟨es, rs2⟩ := pr
    rw [hg] at h
    simp only [Except.ok.injEq, Prod.mk.injEq] at h
    rw [← h.2]
    exact genLoop_snd rs es rs2 hg

/-- Witness for C9: rendering the whitespace-notes release succeeds and
the returned list is its normalisation. -/
theorem C9_generate_whatsnew_mutation_witness :
    generate_whatsnew "X" [sampleRelease2] =
      .ok (whatsnewMain "X" (String.join [entryHtml (normalizeRelease sampleRelease2)]),
           [sampleRelease2].map normalizeRelease) ∧
    ([sampleRelease2].map normalizeRelease = [sampleRelease2].map normalizeRelease ∧
     (∀ (r : WRelease) (k : String), ¬k = "whatsnew" →
       lookupField (normalizeRelease r) k = lookupField r k) ∧
     (∀ r : WRelease, lookupField (normalizeRelease r) "whatsnew" =
       (if needsPlaceholder r then some WHATSNEW_EMPTY_NOTES
        else lookupField r "whatsnew"))) :=
  ⟨rfl, C9_generate_whatsnew_mutation "X" [sampleRelease2]
    (whatsnewMain "X" (String.join [entryHtml (normalizeRelease sampleRelease2)]))
    ([sampleRelease2].map normalizeRelease) rfl⟩

/-- C3: every normal return of `main` carries exit status 0, 1 or 2, and
the status (with its stderr diagnostic) matches the spec's classification:
1 with "Could not find matching release" exactly when a fetch command finds
no matching release, 2 with "Checksum validation failed" exactly when
`download`'s checksum validation runs and fails, and 0 with no diagnostic
in every other case; the two failure statuses are distinct from each other
and from success by construction of the classification. -/
theorem C3_exit_codes (w : World) (a : Args) (fs : FS) (res : MainResult) (fs' : FS)
    (h : mainModel w a fs = .ok (res, fs')) :
    res.exit = c3Exit w a fs ∧ res.stderr = c3Stderr w a fs := by
  cases hc : a.command <;>
    simp only [mainModel, fetchAction, hc] at h <;>
    (repeat' split at h) <;>
    (try (simp only [Except.ok.injEq, Prod.mk.injEq] at h
          obtain ⟨h1, h2⟩ := h
          subst h1)) <;>
    simp_all [c3Exit, c3Stderr, noMatchB, valFailB, isFetchCmd]

/-- Reading back a just-written file yields the written bytes. -/
theorem fsRead_fsWrite (fs : FS) (p : String) (v : List Nat) :
    fsReadD (fsWrite fs p v) p = v := by
  simp [fsReadD, fsWrite, List.lookup]

/-- C5: on the `download` command, when the selected release's checksum
validation fails, `main` returns normally with exit status 2 and the
diagnostic on stderr, and the filesystem it leaves behind is exactly the
one produced by the download write — the downloaded file is still present
with its downloaded bytes, neither deleted nor modified by the failure
path. -/
theorem C5_checksum_failure_keeps_file (w : World) (a : Args) (fs : FS) (r : Release)
    (url curl c : String)
    (hc : a.command = .download)
    (hsel : selectRelease a.tgtVersion a.tgtBuild w.releases = some r)
    (hl : get_item r.rest linkPath none = .ok (.str url))
    (hskip : a.skipValidation = false)
    (hcl : get_item r.rest checksumLinkPath none = .ok (.str curl))
    (hft : firstToken (w.urlStr curl) = some c)
    (hv : validate (w.urlData url) c = false) :
    mainModel w a fs =
      .ok (⟨2, [], ["Checksum validation failed"]⟩,
           fsWrite fs (pathJoin (destOrDot a.dest) (get_url_filename url)) (w.urlData url)) ∧
    fsReadD
      (fsWrite fs (pathJoin (destOrDot a.dest) (get_url_filename url)) (w.urlData url))
      (pathJoin (destOrDot a.dest) (get_url_filename url)) = w.urlData url := by
  have hrw := fsRead_fsWrite fs
    (pathJoin (destOrDot a.dest) (get_url_filename url)) (w.urlData url)
  refine ⟨?_, hrw⟩
  simp only [mainModel, hc, hsel, fetchAction, hl, hskip, hcl, hft, hrw, hv,
    Bool.false_eq_true, if_false]

/-- Witness for C5 in the sample world: all URLs serve empty bytes whose
SHA-256 digest is not "deadbeef", so the download exits 2 and the file
remains on disk. -/
theorem C5_checksum_failure_keeps_file_witness :
    (sampleArgsDownload.command = .download ∧
     selectRelease sampleArgsDownload.tgtVersion sampleArgsDownload.tgtBuild
       sampleWorld.releases = some sampleSelRelease ∧
     get_item sampleSelRelease.rest linkPath none = .ok (.str "http://h/f.bin") ∧
     sampleArgsDownload.skipValidation = false ∧
     get_item sampleSelRelease.rest checksumLinkPath none = .ok (.str "http://h/f.sha256") ∧
     firstToken (sampleWorld.urlStr "http://h/f.sha256") = some "deadbeef" ∧
     validate (sampleWorld.urlData "http://h/f.bin") "deadbeef" = false) ∧
    (mainModel sampleWorld sampleArgsDownload [] =
      .ok (⟨2, [], ["Checksum validation failed"]⟩,
           fsWrite [] (pathJoin (destOrDot sampleArgsDownload.dest)
             (get_url_filename "http://h/f.bin"))
             (sampleWorld.urlData "http://h/f.bin")) ∧
     fsReadD
       (fsWrite [] (pathJoin (destOrDot sampleArgsDownload.dest)
         (get_url_filename "http://h/f.bin"))
         (sampleWorld.urlData "http://h/f.bin"))
       (pathJoin (destOrDot sampleArgsDownload.dest)
         (get_url_filename "http://h/f.bin")) = sampleWorld.urlData "http://h/f.bin") :=
  ⟨⟨rfl, rfl, rfl, rfl, rfl, rfl, rfl⟩,
   C5_checksum_failure_keeps_file sampleWorld sampleArgsDownload []
     sampleSelRelease "http://h/f.bin" "http://h/f.sha256" "deadbeef"
     rfl rfl rfl rfl rfl rfl rfl⟩

/-- Witness for C3: a concrete `download_url` run returns exit 0 with no
diagnostic, matching the spec classification. -/
theorem C3_exit_codes_witness :
    mainModel sampleWorld sampleArgsUrl [] =
      .ok (⟨0, ["http://h/f.bin"], []⟩, ([] : FS)) ∧
    ((⟨0, ["http://h/f.bin"], []⟩ : MainResult).exit =
       c3Exit sampleWorld sampleArgsUrl [] ∧
     (⟨0, ["http://h/f.bin"], []⟩ : MainResult).stderr =
       c3Stderr sampleWorld sampleArgsUrl []) :=
  ⟨rfl, C3_exit_codes sampleWorld sampleArgsUrl [] ⟨0, ["http://h/f.bin"], []⟩ [] rfl⟩

/-- The model's SHA-256 reproduces the FIPS 180-4 test vector for the
empty message. -/
theorem sha256Hex_empty_vector :
    sha256Hex [] = "e3b0c44298fc1c149afbf4c8996fb92427ae41e4649b934ca495991b7852b855" := by
  decide

/-- The model's SHA-256 reproduces the FIPS 180-4 test vector for the
message "abc". -/
theorem sha256Hex_abc_vector :
    sha256Hex [97, 98, 99] =
      "ba7816bf8f01cfea414140de5dae2223b00361a396177a9cb410ff61f20015ad" := by
  decide

end Jetbrains
